import Mathlib

/-!
Verification of the PDF crawler (`crawler.py`) against its specification.

URLs and other Python strings are embedded as `List Char`; machine-level
string operations (`str.lower`, `str.strip`, `str.replace`, `str.startswith`,
`str.endswith`, substring tests, `urllib.parse.urlparse` field extraction,
`os.path.basename`) are translated as executable functions on `List Char`.
Network and filesystem effects are passed in explicitly: the outcome of each
HTTP request or directory operation is a parameter, and the crawler's shared
mutable state (`visited_urls`, `pdf_links`, `crawl_status`) is threaded as an
explicit state record.
-/

set_option maxRecDepth 4000

abbrev LC := List Char

/-- Python `str.lower()` restricted to ASCII, as used on URLs and headers. -/
def lowerLC (l : LC) : LC := l.map Char.toLower

/-- Characters removed by Python `str.strip()` (ASCII whitespace). -/
def isPySpace (c : Char) : Bool :=
  c == (' ') || c == ('\t') || c == ('\n') || c == ('\r') ||
  c == (Char.ofNat 11) || c == (Char.ofNat 12)

/-- Python `str.strip()`: drop leading and trailing whitespace. -/
def pyStrip (l : LC) : LC := (l.dropWhile isPySpace).rdropWhile isPySpace

/-- Substring test: `pat in l` for Python strings. -/
def containsSub (pat : LC) : LC → Bool
  | [] => pat.isEmpty
  | c :: cs => pat.isPrefixOf (c :: cs) || containsSub pat cs

/-- Characters allowed in a URL scheme by `urllib.parse` (letters, digits, `+`, `-`, `.`). -/
def schemeChar (c : Char) : Bool :=
  c.isAlphanum || c == ('+') || c == ('-') || c == ('.')

/-- The scheme/rest split performed by `urllib.parse.urlsplit`: a scheme is
recognised when a `:` follows a non-empty run of scheme characters starting
with a letter; the scheme is lowercased. -/
def splitScheme (u : LC) : LC × LC :=
  let pre := u.takeWhile (fun c => !(c == (':')))
  if pre.length < u.length && !pre.isEmpty &&
      (match pre with | [] => false | c :: _ => c.isAlpha) && pre.all schemeChar then
    (lowerLC pre, u.drop (pre.length + 1))
  else ([], u)

/-- `urlparse(u).scheme`. -/
def urlScheme (u : LC) : LC := (splitScheme u).1

def afterScheme (u : LC) : LC := (splitScheme u).2

def netlocDelim (c : Char) : Bool := c == ('/') || c == ('?') || c == ('#')

/-- `urlparse(u).netloc`: present only after a `//`, delimited by `/`, `?` or `#`. -/
def urlNetloc (u : LC) : LC :=
  let r := afterScheme u
  if ("//".data).isPrefixOf r then (r.drop 2).takeWhile (fun c => !netlocDelim c)
  else []

/-- `urlparse(u).path`: what remains after scheme and netloc, before `?` or `#`. -/
def urlPath (u : LC) : LC :=
  let r := afterScheme u
  let r := if ("//".data).isPrefixOf r then (r.drop 2).dropWhile (fun c => !netlocDelim c)
           else r
  r.takeWhile (fun c => !(c == ('#') || c == ('?')))

/-- `os.path.basename`: the characters after the last `/`. -/
def basenameLC (p : LC) : LC :=
  (p.reverse.takeWhile (fun c => !(c == ('/')))).reverse

/-- Python `str.replace('www.', '')`: removes every non-overlapping occurrence
of `www.`, scanning left to right (not only a leading prefix). -/
def stripWWW : LC → LC
  | ('w') :: ('w') :: ('w') :: ('.') :: rest => stripWWW rest
  | c :: cs => c :: stripWWW cs
  | [] => []

/-- The static-asset extensions of the first skip pattern in `is_valid_url`. -/
def assetExts : List LC :=
  ["jpg".data, "jpeg".data, "png".data, "gif".data, "svg".data, "ico".data,
   "css".data, "js".data, "xml".data, "json".data, "txt".data, "zip".data,
   "rar".data, "exe".data, "dmg".data]

/-- The `skip_patterns` loop of `PDFCrawler.is_valid_url`: a case-insensitive
regex search for a static-asset extension at the end, a `#` anywhere, or the
substrings `mailto:` / `tel:`. -/
def matchesSkip (url : LC) : Bool :=
  let u := lowerLC url
  assetExts.any (fun e => (('.') :: e).isSuffixOf u) ||
  containsSub ("#".data) u ||
  containsSub ("mailto:".data) u ||
  containsSub ("tel:".data) u

/-- `PDFCrawler.is_valid_url` (crawler.py lines 30-65): scheme must be
http/https; domains are compared after `str.replace('www.', '')` and
lowercasing; unequal domains are accepted exactly when the candidate ends in
`.` + base; the skip patterns are tested only in the equal-domain branch. -/
def is_valid_url (url base_domain : LC) : Bool :=
  if !(urlScheme url == ("http".data) || urlScheme url == ("https".data)) then false
  else
    let url_domain := stripWWW (lowerLC (urlNetloc url))
    let base := stripWWW (lowerLC base_domain)
    if !(url_domain == base) then
      (('.') :: base).isSuffixOf url_domain
    else if matchesSkip url then false
    else true

def startsWithProto (u : LC) : Bool :=
  ("http://".data).isPrefixOf u || ("https://".data).isPrefixOf u

/-- `PDFCrawler.normalize_url` (crawler.py lines 67-75). -/
def normalize_url (u : LC) : LC :=
  let t := pyStrip u
  if startsWithProto t then t else ("https://".data) ++ t

def pdfPathPatterns : List LC :=
  ["/file/".data, "/download/".data, "/api/v1/file/".data]

/-- `PDFCrawler.is_pdf_url` (crawler.py lines 77-87): `.pdf` suffix
(case-insensitive), or a `pdf` substring together with one of the
case-sensitive resource patterns. -/
def is_pdf_url (url : LC) : Bool :=
  if (".pdf".data).isSuffixOf (lowerLC url) then true
  else if containsSub ("/pdf/".data) (lowerLC url) || containsSub ("pdf".data) (lowerLC url) then
    pdfPathPatterns.any (fun p => containsSub p url)
  else false

/-- Status values a `PdfRecord` can take over its lifecycle. -/
inductive PdfStatus
  | found
  | unverified
  | downloaded
  | already_exists
  | download_failed
deriving DecidableEq

/-- The per-PDF dictionary built by `extract_pdf_info` and mutated by the
download functions. -/
structure PdfRecord where
  url : LC
  filename : LC
  source_url : LC
  content_type : LC
  size : Option LC
  status : PdfStatus
  local_path : Option LC
  error : Option LC
deriving DecidableEq

/-- Outcome of the `session.head` metadata probe: `failure` is a raised
exception (timeout, connection error); `success` is any completed response —
the source never inspects the status code, so non-2xx responses are
`success` values here as well. -/
inductive ProbeResult
  | failure
  | success (statusCode : Nat) (contentType : LC) (contentLength : Option LC)

/-- The filename derivation shared by both branches of `extract_pdf_info`
(crawler.py lines 103-105 and 117-119): `os.path.basename(urlparse(url).path)`
with a case-sensitive `.pdf` suffix check. -/
def deriveFilename (url : LC) : LC :=
  let filename := basenameLC (urlPath url)
  if (".pdf".data).isSuffixOf filename then filename
  else filename ++ (".pdf".data)

/-- `PDFCrawler.extract_pdf_info` (crawler.py lines 89-130), with the probe
outcome passed explicitly. A raised probe exception lands in the
`unverified` branch; a completed probe response is accepted iff the URL ends
in `.pdf` or the lowercased content type contains `pdf`, and otherwise the
function falls through to `return None`. -/
def extract_pdf_info (url source_url : LC) (probe : ProbeResult) : Option PdfRecord :=
  match probe with
  | .success _ ct len =>
    let content_type := lowerLC ct
    let is_valid_pdf :=
      (".pdf".data).isSuffixOf (lowerLC url) ||
      containsSub ("application/pdf".data) content_type ||
      containsSub ("pdf".data) content_type
    if is_valid_pdf then
      some { url := url, filename := deriveFilename url, source_url := source_url,
             content_type := content_type, size := len, status := .found,
             local_path := none, error := none }
    else none
  | .failure =>
    some { url := url, filename := deriveFilename url, source_url := source_url,
           content_type := ("unknown".data), size := none, status := .unverified,
           local_path := none, error := none }


/-- The environment a crawl runs against: the outcome of every page GET
(`None` models a raised request exception, `some (anchors, embeds)` the
absolute anchor hrefs and embed/iframe/object resource URLs after
`urljoin`), the outcome of every metadata probe, the in-crawl download hook
(`download_single_pdf`, whose record mutation is abstracted here), and the
outcome of `os.makedirs`. -/
structure World where
  fetch : LC → Option (List LC × List LC)
  probe : LC → ProbeResult
  download : PdfRecord → PdfRecord
  makedirs : LC → Except LC Unit

/-- The crawler's shared mutable state: the `crawl_status` dictionary
together with `visited_urls` and `pdf_links`. -/
structure CrawlState where
  is_running : Bool
  current_depth : Nat
  urls_processed : Nat
  pdfs_found : Nat
  error : Option LC
  visited : List LC
  pdf_links : List PdfRecord
deriving DecidableEq

/-- The per-candidate body of both scanning loops in `crawl_page`
(crawler.py lines 174-207): classifier prefilter, verifier, URL-dedup
against `pdf_links`, append, counter increment, and the optional immediate
download. -/
def process_candidate (w : World) (auto : Bool) (dir : Option LC)
    (st : CrawlState) (page_url absu : LC) : CrawlState :=
  if is_pdf_url absu then
    match extract_pdf_info absu page_url (w.probe absu) with
    | some info =>
      if st.pdf_links.any (fun p => p.url == info.url) then st
      else
        let rec0 := { info with source_url := page_url }
        let rec1 := if auto && dir.isSome then w.download rec0 else rec0
        { st with pdf_links := st.pdf_links ++ [rec1],
                  pdfs_found := st.pdfs_found + 1 }
    | none => st
  else st

/-- `PDFCrawler.get_page_links` (crawler.py lines 132-152): refetch the page
and keep the absolute anchor targets that start with `http://`/`https://`;
a fetch exception yields `[]`. -/
def get_page_links (w : World) (url : LC) : List LC :=
  match w.fetch url with
  | none => []
  | some (anchors, _) => anchors.filter startsWithProto

/-- `PDFCrawler.crawl_page` (crawler.py lines 154-216): depth/visited guard,
mark visited and count, scan anchors then embeds for PDFs, and return
outbound links only below `max_depth`; a page-fetch exception is caught and
yields no links. -/
def crawl_page (w : World) (maxd : Nat) (auto : Bool) (dir : Option LC)
    (st : CrawlState) (url : LC) (depth : Nat) : CrawlState × List LC :=
  if decide (depth > maxd) || st.visited.contains url then (st, [])
  else
    let st1 := { st with visited := st.visited ++ [url],
                         urls_processed := st.urls_processed + 1,
                         current_depth := depth }
    match w.fetch url with
    | none => (st1, [])
    | some (anchors, embeds) =>
      let st2 := (anchors ++ embeds).foldl
        (fun s a => process_candidate w auto dir s url a) st1
      if decide (depth < maxd) then (st2, get_page_links w url) else (st2, [])

/-- The enqueue filter of the scheduler loop (crawler.py lines 276-280):
`(link, depth+1)` is queued iff the link is in scope, not yet visited, and
the child depth is within the bound. -/
def enqueue_new (base : LC) (maxd : Nat) (visited : List LC) (depth : Nat)
    (links : List LC) : List (LC × Nat) :=
  (links.filter (fun l =>
      is_valid_url l base && !visited.contains l && decide (depth + 1 ≤ maxd))).map
    (fun l => (l, depth + 1))

/-- One batch of the scheduler: dispatch each target through `crawl_page`
and collect the surviving child targets. The thread pool is embedded
sequentially in submission order (the races of the unsynchronized original
are treated separately by the interleaving model below). -/
def run_batch (w : World) (maxd : Nat) (auto : Bool) (dir : Option LC) (base : LC)
    (st : CrawlState) (batch : List (LC × Nat)) : CrawlState × List (LC × Nat) :=
  batch.foldl
    (fun acc t =>
      let st' := crawl_page w maxd auto dir acc.1 t.1 t.2
      (st'.1, acc.2 ++ enqueue_new base maxd st'.1.visited t.2 st'.2))
    (st, [])

/-- The `while urls_to_visit and is_running` loop of `crawl_website`
(crawler.py lines 254-288), with explicit fuel for the frontier recursion;
after each batch `current_depth` is recomputed from the remaining queue as
in the source. -/
def crawl_loop (w : World) (maxd workers : Nat) (auto : Bool) (dir : Option LC)
    (base : LC) : Nat → CrawlState → List (LC × Nat) → CrawlState
  | 0, st, _ => st
  | fuel + 1, st, queue =>
    if queue.isEmpty || !st.is_running then st
    else
      let batch := queue.take workers
      let rest := queue.drop workers
      let out := run_batch w maxd auto dir base st batch
      let queue' := rest ++ out.2
      let st' :=
        if !queue'.isEmpty then
          { out.1 with current_depth := (queue'.map Prod.snd).foldl max 0 }
        else out.1
      crawl_loop w maxd workers auto dir base fuel st' queue'

/-- A fresh `crawl_status` as reset at the top of `crawl_website`. -/
def freshStatus : CrawlState :=
  { is_running := true, current_depth := 0, urls_processed := 0,
    pdfs_found := 0, error := none, visited := [], pdf_links := [] }

/-- `PDFCrawler.crawl_website` (crawler.py lines 218-308). The body runs
under `try/except/finally`: in this model the fallible setup step is
`os.makedirs` (reached only when auto-download is enabled with a directory);
its exception is the caught `except Exception` path, which records the
message into `crawl_status['error']`; the `finally` clause clears
`is_running` on every path. -/
def crawl_website (w : World) (fuel workers maxd : Nat) (start_url : LC)
    (dir : Option LC) (auto : Bool) : CrawlState :=
  let start := normalize_url start_url
  let base := urlNetloc start
  let setupErr : Option LC :=
    if auto then
      match dir with
      | some d => match w.makedirs d with | .ok _ => none | .error e => some e
      | none => none
    else none
  match setupErr with
  | some e => { freshStatus with error := some e, is_running := false }
  | none =>
    { crawl_loop w maxd workers auto dir base fuel freshStatus [(start, 0)] with
      is_running := false }

/-- A flat filesystem directory: filenames mapped to byte contents. -/
structure FS where
  files : List (LC × LC)
deriving DecidableEq

def FS.lookup (fs : FS) (name : LC) : Option LC :=
  (fs.files.find? (fun p => p.1 == name)).map Prod.snd

def FS.write (fs : FS) (name content : LC) : FS :=
  { files := (name, content) :: fs.files.filter (fun p => !(p.1 == name)) }

/-- `os.path.join` for a directory and a relative filename. -/
def pathJoin (dir name : LC) : LC :=
  if (("/".data)).isSuffixOf dir then dir ++ name else dir ++ ("/".data) ++ name

/-- Outcome of the download GET: `connError` models an exception raised by
`session.get`/`raise_for_status` before any write; `stream chunks interrupt`
models the body iteration, which wrote `chunks` to the open file and then
either completed (`interrupt = none`) or raised (`interrupt = some msg`). -/
inductive DlBody
  | connError (msg : LC)
  | stream (chunks : List LC) (interrupt : Option LC)

/-- `PDFCrawler.download_single_pdf` (crawler.py lines 360-404): returns the
updated record, the updated directory contents, and the function's boolean
result. The file is opened directly at the final target path and chunks are
written as they arrive, so an interrupted stream leaves the partial content
at `dest_dir/<filename>`; the exception handler records the failure on the
record but performs no cleanup. -/
def download_single_pdf (dir : Option LC) (body : DlBody) (fs : FS)
    (record : PdfRecord) : PdfRecord × FS × Bool :=
  match dir with
  | none => (record, fs, false)
  | some d =>
    let filepath := pathJoin d record.filename
    if (fs.lookup filepath).isSome then
      ({ record with status := .already_exists }, fs, true)
    else
      match body with
      | .connError m =>
        ({ record with status := .download_failed, error := some m }, fs, false)
      | .stream chunks none =>
        ({ record with status := .downloaded, local_path := some filepath },
         fs.write filepath chunks.flatten, true)
      | .stream chunks (some m) =>
        ({ record with status := .download_failed, error := some m },
         fs.write filepath chunks.flatten, false)

/-- Shared state touched by the unsynchronized check-then-insert of
`crawl_page` (crawler.py lines 156-160): the `visited_urls` set, the
`urls_processed` counter, and each worker's local result of the membership
test it performed. -/
structure RaceState where
  visited : List LC
  urls_processed : Nat
  seen1 : Option Bool
  seen2 : Option Bool
deriving DecidableEq

/-- The individual steps two thread-pool workers execute on the shared state
when both were handed the same URL: `check` is the `url in self.visited_urls`
read (line 156), `mark` is the subsequent `visited_urls.add(url)` plus
`urls_processed += 1` (lines 159-160), executed only when that worker's own
check found the URL absent. The source guards none of this with a lock, so
any interleaving of these steps is possible. -/
inductive RaceAction
  | check1
  | mark1
  | check2
  | mark2

def raceInsert (url : LC) (v : List LC) : List LC :=
  if v.contains url then v else v ++ [url]

def race_step (url : LC) (s : RaceState) : RaceAction → RaceState
  | .check1 => { s with seen1 := some (s.visited.contains url) }
  | .mark1 =>
    if s.seen1 == some false then
      { s with visited := raceInsert url s.visited,
               urls_processed := s.urls_processed + 1 }
    else s
  | .check2 => { s with seen2 := some (s.visited.contains url) }
  | .mark2 =>
    if s.seen2 == some false then
      { s with visited := raceInsert url s.visited,
               urls_processed := s.urls_processed + 1 }
    else s

/-- Run an interleaving of the two workers' steps from an empty run state. -/
def race_run (url : LC) (schedule : List RaceAction) : RaceState :=
  schedule.foldl (race_step url)
    { visited := [], urls_processed := 0, seen1 := none, seen2 := none }

/-- Modelled from the spec claim for comparison: a domain normalization that
strips only a LEADING `www.` from a host, as claim C8 describes. -/
def stripLeadingWWW (d : LC) : LC :=
  if ("www.".data).isPrefixOf d then d.drop 4 else d

/-- Modelled from the spec claim for comparison: the in-domain test as claim
C8 states it — leading-only `www.` stripping on both hosts, then equality or
a `.`+base suffix. -/
def in_scope_domain_leading (url base_domain : LC) : Bool :=
  let c := stripLeadingWWW (lowerLC (urlNetloc url))
  let b := stripLeadingWWW (lowerLC base_domain)
  c == b || ((('.') :: b).isSuffixOf c)

/-- Concrete environment for witness runs: one page at `https://e.com` with
an anchor to a PDF and an anchor to a subpage. -/
def w0 : World :=
  { fetch := fun u =>
      if u == ("https://e.com".data) then
        some (["https://e.com/a.pdf".data, "https://e.com/b".data], [])
      else none,
    probe := fun _ => ProbeResult.failure,
    download := fun r => r,
    makedirs := fun _ => Except.ok () }

/-- Concrete environment whose directory creation fails. -/
def wBad : World :=
  { fetch := fun _ => none,
    probe := fun _ => ProbeResult.failure,
    download := fun r => r,
    makedirs := fun _ => Except.error ("boom".data) }

/-- A concrete record for download runs. -/
def sampleRecord : PdfRecord :=
  { url := "https://example.com/docs/report.pdf".data,
    filename := "report.pdf".data,
    source_url := "https://example.com/docs".data,
    content_type := "unknown".data,
    size := none, status := .unverified, local_path := none, error := none }

theorem containsSub_spec (pat : LC) : ∀ l : LC, containsSub pat l = true ↔ pat <:+: l := by
  intro l
  induction l with
  | nil =>
    simp [containsSub, List.isEmpty_iff]
  | cons c cs ih =>
    simp [containsSub, List.infix_cons_iff, ih, List.isPrefixOf_iff_prefix, or_comm]

theorem lookup_write_self (fs : FS) (name content : LC) :
    (fs.write name content).lookup name = some content := by
  simp [FS.lookup, FS.write]

theorem dropWhile_head_false (p : Char → Bool) (x : LC) (a : Char) (ys : LC)
    (hself : x.dropWhile p = x) (hx : x = a :: ys) : p a = false := by
  subst hx
  rw [List.dropWhile_cons] at hself
  by_cases hpa : p a = true
  · rw [if_pos hpa] at hself
    have hlen : (ys.dropWhile p).length ≤ ys.length :=
      (List.dropWhile_sublist p).length_le
    rw [hself] at hlen
    simp at hlen
  · simpa using hpa

theorem pyStrip_idem (l : LC) : pyStrip (pyStrip l) = pyStrip l := by
  have hxself : List.dropWhile isPySpace (List.dropWhile isPySpace l) =
      List.dropWhile isPySpace l := List.dropWhile_idempotent _ _
  have hy : List.dropWhile isPySpace (pyStrip l) = pyStrip l := by
    cases hyeq : pyStrip l with
    | nil => simp
    | cons a ys =>
      obtain ⟨t, ht⟩ := List.rdropWhile_prefix isPySpace
        (List.dropWhile isPySpace l)
      rw [show List.rdropWhile isPySpace (List.dropWhile isPySpace l) = pyStrip l from rfl,
        hyeq] at ht
      have hxa : List.dropWhile isPySpace l = a :: (ys ++ t) := by rw [← ht]; simp
      have hpa : isPySpace a = false := dropWhile_head_false _ _ a (ys ++ t) hxself hxa
      rw [List.dropWhile_cons, hpa]
      simp
  show List.rdropWhile isPySpace (List.dropWhile isPySpace (pyStrip l)) = pyStrip l
  rw [hy]
  show List.rdropWhile isPySpace
    (List.rdropWhile isPySpace (List.dropWhile isPySpace l)) = pyStrip l
  rw [List.rdropWhile_idempotent]
  rfl

theorem rdropWhile_pyStrip (l : LC) :
    List.rdropWhile isPySpace (pyStrip l) = pyStrip l := by
  show List.rdropWhile isPySpace
    (List.rdropWhile isPySpace (List.dropWhile isPySpace l)) = pyStrip l
  rw [List.rdropWhile_idempotent]
  rfl

theorem pyStrip_proto_append (t : LC)
    (hstem : List.rdropWhile isPySpace t = t) :
    pyStrip (("https://".data) ++ t) = ("https://".data) ++ t := by
  unfold pyStrip
  rw [List.dropWhile_append]
  have hh : List.dropWhile isPySpace ("https://".data) = ("https://".data) := by decide
  rw [hh]
  have hne : (("https://".data) : LC).isEmpty = false := by decide
  rw [hne]
  simp only [Bool.false_eq_true, if_false]
  show List.rdropWhile isPySpace (("https://".data) ++ t) = ("https://".data) ++ t
  unfold List.rdropWhile
  rw [List.reverse_append, List.dropWhile_append]
  have hts : List.dropWhile isPySpace t.reverse = t.reverse := by
    have := congrArg List.reverse hstem
    unfold List.rdropWhile at this
    rw [List.reverse_reverse] at this
    exact this
  rw [hts]
  cases t with
  | nil =>
    simp
    decide
  | cons b bs =>
    have hne2 : ((b :: bs).reverse).isEmpty = false := by
      simp [List.isEmpty_iff]
    rw [hne2]
    simp

theorem startsWithProto_append (t : LC) :
    startsWithProto (("https://".data) ++ t) = true := by
  unfold startsWithProto
  have h : ("https://".data).isPrefixOf (("https://".data) ++ t) = true := by
    rw [ List.isPrefixOf_iff_prefix]
    exact List.prefix_append _ _
  rw [h]
  simp

/-- C1 counterexample: the crawler hands this URL to the verifier (the
prefilter `is_pdf_url` accepts it), the probe completes with a non-2xx
status and a non-PDF content type, and `extract_pdf_info` returns null —
refuting both that a non-2xx probe yields an `unverified` record and that
the verifier is non-null on every candidate it is handed. -/
theorem c1_counterexample :
    is_pdf_url ("https://example.com/file/pdfdoc".data) = true
    ∧ extract_pdf_info ("https://example.com/file/pdfdoc".data)
        ("https://example.com".data)
        (ProbeResult.success 404 ("text/html".data) none) = none := by
  decide

/-- C1 (amended): a probe that raises (timeout, network error) never
discards the candidate — the record comes back with `status = unverified`,
`content_type = "unknown"`, `size = null`; but a probe that completes is
accepted only on a `.pdf` URL suffix or a `pdf` content type, and otherwise
the verifier returns null even for candidates the prefilter admitted (the
response status code is never consulted, so non-2xx responses behave like
any completed response). -/
theorem c1_verifier :
    (∀ url src : LC,
      extract_pdf_info url src ProbeResult.failure =
        some { url := url, filename := deriveFilename url, source_url := src,
               content_type := ("unknown".data), size := none,
               status := PdfStatus.unverified, local_path := none, error := none })
    ∧ (∀ (url src : LC) (code : Nat) (ct : LC) (len : Option LC),
        (".pdf".data).isSuffixOf (lowerLC url) = false →
        containsSub ("pdf".data) (lowerLC ct) = false →
        extract_pdf_info url src (ProbeResult.success code ct len) = none) := by
  constructor
  · intro url src
    rfl
  · intro url src code ct len h1 h2
    have h3 : containsSub ("application/pdf".data) (lowerLC ct) = false := by
      cases hfa : containsSub ("application/pdf".data) (lowerLC ct) with
      | false => rfl
      | true =>
        exfalso
        have hinf : ("application/pdf".data) <:+: lowerLC ct :=
          (containsSub_spec _ _).mp hfa
        have hpdf : ("pdf".data) <:+: ("application/pdf".data) :=
          ⟨("application/".data), [], by decide⟩
        have : containsSub ("pdf".data) (lowerLC ct) = true :=
          (containsSub_spec _ _).mpr (hpdf.trans hinf)
        rw [h2] at this
        exact Bool.false_ne_true this
    unfold extract_pdf_info
    simp [h1, h2, h3]

/-- C1 witness: a concrete candidate whose completed probe reports
`text/html` and which does not end in `.pdf` is rejected with null. -/
theorem c1_verifier_witness :
    extract_pdf_info ("https://example.com/file/pdfdoc2".data)
      ("https://example.com".data)
      (ProbeResult.success 200 ("text/html".data) none) = none :=
  c1_verifier.2 _ _ 200 _ none (by decide) (by decide)

/-- C2 counterexample: a static-asset URL on a proper subdomain of the base
domain is accepted by `is_valid_url`, because the skip-pattern filter runs
only in the equal-domain branch — the claim predicts rejection regardless
of domain. -/
theorem c2_counterexample :
    is_valid_url ("https://blog.example.com/pic.jpg".data)
      ("example.com".data) = true := by
  decide

/-- C2 (amended): `is_valid_url` rejects every scheme other than
http/https (this covers fragment-only, `mailto:` and `tel:` links, which
parse without an http scheme), and rejects asset extensions, anchors and
mailto/tel substrings only when the stripped candidate domain equals the
stripped base domain; a proper subdomain bypasses that filter. -/
theorem c2_scope_filter :
    (∀ url base : LC,
      ¬(urlScheme url = ("http".data) ∨ urlScheme url = ("https".data)) →
      is_valid_url url base = false)
    ∧ (∀ url base : LC,
      stripWWW (lowerLC (urlNetloc url)) = stripWWW (lowerLC base) →
      matchesSkip url = true →
      is_valid_url url base = false)
    ∧ is_valid_url ("https://blog.example.com/pic.jpg".data)
        ("example.com".data) = true := by
  refine ⟨?_, ?_, by decide⟩
  · intro url base h
    have h1 : (urlScheme url == ("http".data)) = false := by
      rw [beq_eq_false_iff_ne]
      intro hc
      exact h (Or.inl hc)
    have h2 : (urlScheme url == ("https".data)) = false := by
      rw [beq_eq_false_iff_ne]
      intro hc
      exact h (Or.inr hc)
    unfold is_valid_url
    rw [h1, h2]
    rfl
  · intro url base hdom hskip
    unfold is_valid_url
    by_cases hs : (urlScheme url == ("http".data) || urlScheme url == ("https".data)) = true
    · rw [hs]
      simp only [Bool.not_true, Bool.false_eq_true, if_false]
      rw [hdom]
      simp [hskip]
    · simp only [Bool.not_eq_true] at hs
      rw [hs]
      rfl

/-- C2 witness: a `mailto:` link is rejected through the scheme check, and
an equal-domain asset URL is rejected through the skip patterns. -/
theorem c2_scope_filter_witness :
    is_valid_url ("mailto:someone@example.com".data) ("example.com".data) = false
    ∧ is_valid_url ("https://example.com/pic.jpg".data) ("example.com".data) = false :=
  ⟨c2_scope_filter.1 _ _ (by decide), c2_scope_filter.2.1 _ _ (by decide) (by decide)⟩

/-- C3 counterexample: a URL with a `/pdf/` path segment but none of the
resource-indicating patterns is rejected by the classifier — the `/pdf/`
segment alone does not suffice, contrary to the claim. -/
theorem c3_counterexample :
    is_pdf_url ("https://example.com/pdf/doc".data) = false := by
  decide

/-- C3 (amended): for a URL not ending in `.pdf` (case-insensitive) that
contains a `/pdf/` segment, the classifier returns true exactly when the
URL also contains one of `/file/`, `/download/`, `/api/v1/file/`. -/
theorem c3_classifier :
    ∀ url : LC,
      (".pdf".data).isSuffixOf (lowerLC url) = false →
      containsSub ("/pdf/".data) (lowerLC url) = true →
      is_pdf_url url = pdfPathPatterns.any (fun p => containsSub p url) := by
  intro url h1 h2
  unfold is_pdf_url
  rw [h1, h2]
  rfl

/-- C3 witness: with `/pdf/` and `/download/` both present the classifier
accepts. -/
theorem c3_classifier_witness :
    is_pdf_url ("https://example.com/pdf/download/doc".data) = true :=
  (c3_classifier _ (by decide) (by decide)).trans (by decide)

/-- C6: the source's check-then-insert on `visited_urls` (crawler.py lines
156-160) runs without any lock. Under the interleaving in which both
workers perform their membership test before either inserts, the same URL
is marked visited and counted in `urls_processed` twice; the serialized
schedule processes it once. This exhibits the race the claim's required
mutual exclusion would prevent. -/
theorem c6_visited_race :
    (race_run ("https://example.com/c".data)
      [RaceAction.check1, RaceAction.check2, RaceAction.mark1, RaceAction.mark2]).urls_processed = 2
    ∧ (race_run ("https://example.com/c".data)
      [RaceAction.check1, RaceAction.mark1, RaceAction.check2, RaceAction.mark2]).urls_processed = 1 := by
  decide

/-- C7 counterexample: the destination starts empty, the stream raises after
one chunk, and the failed record coexists with a partial file visible under
the final target name `downloads/report.pdf` — the claim requires that no
such partial file remain. -/
theorem c7_counterexample :
    ((download_single_pdf (some ("downloads".data))
        (DlBody.stream [("%PDF-1.4".data)] (some ("timeout".data)))
        ⟨[]⟩ sampleRecord).1.status = PdfStatus.download_failed)
    ∧ ((download_single_pdf (some ("downloads".data))
        (DlBody.stream [("%PDF-1.4".data)] (some ("timeout".data)))
        ⟨[]⟩ sampleRecord).2.1.lookup ("downloads/report.pdf".data)
          = some ("%PDF-1.4".data)) := by
  decide

/-- C7 (amended): on any failure the downloader sets
`status = download_failed` and `error` to the failure message, but it writes
directly to the final target path: a connection failure leaves the
filesystem untouched, while a failure during the body stream leaves the
partial content written so far visible under `dest_dir/<filename>`. -/
theorem c7_download_failure :
    (∀ (d : LC) (fs : FS) (rec : PdfRecord) (m : LC) (chunks : List LC),
      fs.lookup (pathJoin d rec.filename) = none →
      (download_single_pdf (some d) (DlBody.stream chunks (some m)) fs rec).1.status
          = PdfStatus.download_failed
      ∧ (download_single_pdf (some d) (DlBody.stream chunks (some m)) fs rec).1.error
          = some m
      ∧ (download_single_pdf (some d) (DlBody.stream chunks (some m)) fs rec).2.1.lookup
          (pathJoin d rec.filename) = some chunks.flatten)
    ∧ (∀ (d : LC) (fs : FS) (rec : PdfRecord) (m : LC),
      fs.lookup (pathJoin d rec.filename) = none →
      (download_single_pdf (some d) (DlBody.connError m) fs rec).1.status
          = PdfStatus.download_failed
      ∧ (download_single_pdf (some d) (DlBody.connError m) fs rec).1.error = some m
      ∧ (download_single_pdf (some d) (DlBody.connError m) fs rec).2.1 = fs) := by
  constructor
  · intro d fs rec m chunks h
    simp [download_single_pdf, h, lookup_write_self]
  · intro d fs rec m h
    simp [download_single_pdf, h]

/-- C7 witness: both failure modes at concrete inputs. -/
theorem c7_download_failure_witness :
    ((download_single_pdf (some ("dldir".data))
        (DlBody.stream [("%PDF-".data)] (some ("reset".data)))
        ⟨[]⟩ sampleRecord).1.status = PdfStatus.download_failed
      ∧ (download_single_pdf (some ("dldir".data))
          (DlBody.stream [("%PDF-".data)] (some ("reset".data)))
          ⟨[]⟩ sampleRecord).1.error = some ("reset".data)
      ∧ (download_single_pdf (some ("dldir".data))
          (DlBody.stream [("%PDF-".data)] (some ("reset".data)))
          ⟨[]⟩ sampleRecord).2.1.lookup
            (pathJoin ("dldir".data) sampleRecord.filename)
          = some ([("%PDF-".data)] : List LC).flatten) :=
  c7_download_failure.1 ("dldir".data) ⟨[]⟩ sampleRecord ("reset".data)
    [("%PDF-".data)] (by decide)

/-- C8 counterexample: `str.replace('www.', '')` removes the interior
`www.` of `awww.example.com`, making it equal to the base `aexample.com`,
so the source accepts this URL; under the claim's leading-only stripping it
would be out of domain and rejected. -/
theorem c8_counterexample :
    is_valid_url ("https://awww.example.com/x".data) ("aexample.com".data) = true
    ∧ in_scope_domain_leading ("https://awww.example.com/x".data)
        ("aexample.com".data) = false := by
  decide

/-- C8 (amended): the domain test strips EVERY occurrence of `www.` from
both hosts (Python `str.replace`), then accepts unequal domains exactly when
the stripped candidate ends in `.` + stripped base; the claim's three
examples hold, and the interior-stripping example shows the difference from
leading-only stripping. -/
theorem c8_domain_test :
    (∀ url base : LC,
      (urlScheme url = ("http".data) ∨ urlScheme url = ("https".data)) →
      ¬(stripWWW (lowerLC (urlNetloc url)) = stripWWW (lowerLC base)) →
      is_valid_url url base =
        ((('.') :: stripWWW (lowerLC base)).isSuffixOf
          (stripWWW (lowerLC (urlNetloc url)))))
    ∧ is_valid_url ("https://blog.example.com/x".data) ("example.com".data) = true
    ∧ is_valid_url ("https://example.com/x".data) ("example.com".data) = true
    ∧ is_valid_url ("https://other.com/x".data) ("example.com".data) = false
    ∧ is_valid_url ("https://awww.example.com/x".data) ("aexample.com".data) = true := by
  refine ⟨?_, by decide, by decide, by decide, by decide⟩
  intro url base hs hne
  have h1 : (urlScheme url == ("http".data) || urlScheme url == ("https".data)) = true := by
    rcases hs with h | h <;> simp [h]
  have h2 : (stripWWW (lowerLC (urlNetloc url)) == stripWWW (lowerLC base)) = false := by
    rw [beq_eq_false_iff_ne]
    exact hne
  unfold is_valid_url
  simp [h1, h2]

/-- C8 witness: the general domain rule applied to the subdomain example. -/
theorem c8_domain_test_witness :
    is_valid_url ("https://blog.example.com/x".data) ("example.com".data) =
      ((('.') :: stripWWW (lowerLC ("example.com".data))).isSuffixOf
        (stripWWW (lowerLC (urlNetloc ("https://blog.example.com/x".data))))) :=
  c8_domain_test.1 _ _ (by decide) (by decide)

/-- C10: the filename derived by the verifier always ends in the lowercase
suffix `.pdf`; the suffix test is case-sensitive, so a path ending in `.PDF`
gets the suffix doubled (`a.PDF` becomes `a.PDF.pdf`), and an empty path or
one ending in `/` yields the bare filename `.pdf`. -/
theorem c10_filename :
    (∀ url : LC, (".pdf".data).isSuffixOf (deriveFilename url) = true)
    ∧ deriveFilename ("https://example.com/docs/a.PDF".data) = ("a.PDF.pdf".data)
    ∧ deriveFilename ("https://example.com/docs/".data) = (".pdf".data)
    ∧ deriveFilename ("https://example.com".data) = (".pdf".data) := by
  refine ⟨fun url => ?_, by decide, by decide, by decide⟩
  by_cases h : (".pdf".data).isSuffixOf (basenameLC (urlPath url)) = true
  · simp [deriveFilename, h]
  · simp only [Bool.not_eq_true] at h
    simp [deriveFilename, h, List.isSuffixOf_iff_suffix]

/-- C9: for every seed whose trimmed form lacks an `http://`/`https://`
prefix, `normalize_url` prepends `https://` exactly once; normalization is
idempotent on every string; and an already-prefixed trimmed input is
returned unchanged. -/
theorem c9_normalize (s : LC) :
    (startsWithProto (pyStrip s) = false →
      normalize_url s = ("https://".data) ++ pyStrip s)
    ∧ normalize_url (normalize_url s) = normalize_url s
    ∧ (startsWithProto s = true → pyStrip s = s → normalize_url s = s) := by
  refine ⟨?_, ?_, ?_⟩
  · intro h
    simp [normalize_url, h]
  · by_cases h : startsWithProto (pyStrip s) = true
    · have h1 : normalize_url s = pyStrip s := by simp [normalize_url, h]
      rw [h1]
      simp [normalize_url, pyStrip_idem, h]
    · simp only [Bool.not_eq_true] at h
      have h1 : normalize_url s = ("https://".data) ++ pyStrip s := by
        simp [normalize_url, h]
      rw [h1]
      have h2 : pyStrip (("https://".data) ++ pyStrip s) = ("https://".data) ++ pyStrip s :=
        pyStrip_proto_append _ (rdropWhile_pyStrip s)
      show (if startsWithProto (pyStrip (("https://".data) ++ pyStrip s)) = true
            then pyStrip (("https://".data) ++ pyStrip s)
            else ("https://".data) ++ pyStrip (("https://".data) ++ pyStrip s)) =
        ("https://".data) ++ pyStrip s
      rw [h2, startsWithProto_append]
      simp
  · intro h1 h2
    simp [normalize_url, h2, h1]

/-- C9 witness: a bare trimmed-with-whitespace seed gets the prefix once; an
already-prefixed seed is returned unchanged. -/
theorem c9_normalize_witness :
    normalize_url ("  example.com ".data) = ("https://example.com".data)
    ∧ normalize_url ("https://example.com".data) = ("https://example.com".data) :=
  ⟨((c9_normalize ("  example.com ".data)).1 (by decide)).trans (by decide),
   (c9_normalize ("https://example.com".data)).2.2 (by decide) (by decide)⟩

/-- C4: the scheduler's enqueue filter admits `(link, depth+1)` exactly when
the link passes `is_valid_url` for the base domain, is not in the visited
set, and `depth+1` is within the bound; and a page dispatched at depth
`max_depth` is still put through the PDF scan but contributes no outbound
links. -/
theorem c4_scheduler :
    (∀ (base : LC) (maxd : Nat) (visited : List LC) (depth : Nat)
        (links : List LC) (l : LC) (d : Nat),
      ((l, d) ∈ enqueue_new base maxd visited depth links ↔
        l ∈ links ∧ is_valid_url l base = true ∧ visited.contains l = false ∧
        depth + 1 ≤ maxd ∧ d = depth + 1))
    ∧ (∀ (w : World) (maxd : Nat) (auto : Bool) (dir : Option LC)
        (st : CrawlState) (url : LC) (anchors embeds : List LC),
      st.visited.contains url = false →
      w.fetch url = some (anchors, embeds) →
      (crawl_page w maxd auto dir st url maxd).1 =
        (anchors ++ embeds).foldl
          (fun s a => process_candidate w auto dir s url a)
          { st with visited := st.visited ++ [url],
                    urls_processed := st.urls_processed + 1,
                    current_depth := maxd }
      ∧ (crawl_page w maxd auto dir st url maxd).2 = []) := by
  constructor
  · intro base maxd visited depth links l d
    unfold enqueue_new
    simp only [List.mem_map, List.mem_filter, Bool.and_eq_true,
      decide_eq_true_eq, Bool.not_eq_true']
    constructor
    · rintro ⟨a, ⟨ha, hcond⟩, heq⟩
      rw [Prod.mk.injEq] at heq
      obtain ⟨rfl, rfl⟩ := heq
      exact ⟨ha, hcond.1.1, hcond.1.2, hcond.2, rfl⟩
    · rintro ⟨hl, hv2, hc, hd, rfl⟩
      exact ⟨l, ⟨hl, ⟨hv2, hc⟩, hd⟩, rfl⟩
  · intro w maxd auto dir st url anchors embeds hv hf
    have hguard : (decide (maxd > maxd) || st.visited.contains url) = false := by
      rw [hv]
      simp
    unfold crawl_page
    rw [hguard, hf]
    simp

/-- C4 witness: with the one-page environment, a target dispatched at the
depth bound is scanned (the PDF link enters the state) and yields no
outbound links. -/
theorem c4_scheduler_witness :
    (crawl_page w0 1 false none freshStatus ("https://e.com".data) 1).1 =
      ((["https://e.com/a.pdf".data, "https://e.com/b".data] ++ ([] : List LC)).foldl
        (fun s a => process_candidate w0 false none s ("https://e.com".data) a)
        { freshStatus with visited := freshStatus.visited ++ [("https://e.com".data)],
                           urls_processed := freshStatus.urls_processed + 1,
                           current_depth := 1 })
    ∧ (crawl_page w0 1 false none freshStatus ("https://e.com".data) 1).2 = [] :=
  c4_scheduler.2 w0 1 false none freshStatus ("https://e.com".data)
    (["https://e.com/a.pdf".data, "https://e.com/b".data]) [] (by decide) (by decide)

/-- C5: `crawl_website` returns with `is_running = false` on every path
(success, empty frontier, exhausted fuel, or setup failure), and a setup
exception — here a failing `os.makedirs` when auto-download is enabled —
is caught and its message recorded into the status `error` field rather
than propagated. -/
theorem c5_run_lifecycle :
    (∀ (w : World) (fuel workers maxd : Nat) (su : LC) (dir : Option LC) (auto : Bool),
      (crawl_website w fuel workers maxd su dir auto).is_running = false)
    ∧ (∀ (w : World) (fuel workers maxd : Nat) (su d e : LC),
      w.makedirs d = Except.error e →
      (crawl_website w fuel workers maxd su (some d) true).error = some e) := by
  constructor
  · intro w fuel workers maxd su dir auto
    unfold crawl_website
    cases auto with
    | false => rfl
    | true =>
      cases dir with
      | none => rfl
      | some d =>
        cases hm : w.makedirs d with
        | ok u => simp [hm]
        | error e => simp [hm]
  · intro w fuel workers maxd su d e h
    simp [crawl_website, h]

/-- C5 witness: a run whose directory creation raises ends not running with
the exception message recorded. -/
theorem c5_run_lifecycle_witness :
    (crawl_website wBad 3 5 3 ("example.com".data) (some ("downloads".data)) true).is_running = false
    ∧ (crawl_website wBad 3 5 3 ("example.com".data) (some ("downloads".data)) true).error
        = some ("boom".data) :=
  ⟨c5_run_lifecycle.1 wBad 3 5 3 ("example.com".data) (some ("downloads".data)) true,
   c5_run_lifecycle.2 wBad 3 5 3 ("example.com".data) ("downloads".data) ("boom".data) rfl⟩
